import Mathlib

/-!
Verification development for the nest-services relay gateway.

The TypeScript source is shallowly embedded in Lean:

* Redis is modelled as `Store α`: an association list of
  `(key, value, expiresAt)` entries plus a `healthy` flag.  A command on an
  unhealthy store returns `.error ()`, modelling a rejected promise; an
  exception propagating out of an `async` method is modelled by an
  `Except`-valued result.  `GET key` at time `t` returns the value iff the
  entry's expiry is still in the future; `SET key v EX ttl` writes an entry
  expiring at `t + ttl`.
* `JSON.stringify`/`JSON.parse` form a bijection on the JSON-serializable
  payloads the gateway stores, and `JSON.stringify` never produces a falsy
  string, so the serialization layer is modelled as the identity: stores are
  typed by their payload type and the JavaScript `data ? ... : ...`
  truthiness test on the fetched string is modelled as a presence test.
* Each cache class of the source becomes a namespace whose `get`/`set`
  mirror the TypeScript method bodies, including which variants wrap the
  Redis calls in `try`/`catch` and which let rejections escape.
* The Socket.IO gateway (`VoiceGateway`) and the upstream client
  (`PythonSocket.dispatch`) are embedded as an explicit state machine
  further below.
-/

/-- Model of the ioredis client: entries `(key, value, expiresAt)` plus a
health flag.  `healthy = false` models a store whose commands reject
(connection down with `enableOfflineQueue: false`). -/
structure Store (α : Type) where
  entries : List (String × α × Nat)
  healthy : Bool
  deriving Repr, DecidableEq

namespace Store

/-- Raw lookup of a key's `(value, expiresAt)` entry. -/
def lookup (st : Store α) (k : String) : Option (α × Nat) :=
  (st.entries.find? (fun e => e.1 == k)).map (fun e => e.2)

/-- `redis.get key` issued at time `t`: rejects when unhealthy, otherwise
returns the value if the entry has not yet expired. -/
def rget (st : Store α) (t : Nat) (k : String) : Except Unit (Option α) :=
  if st.healthy then
    .ok (match st.lookup k with
      | some (v, expiry) => if t < expiry then some v else none
      | none => none)
  else .error ()

/-- `redis.set key v 'EX' ttl` issued at time `t`: rejects when unhealthy,
otherwise stores the value with expiry `t + ttl`. -/
def rsetex (st : Store α) (t : Nat) (k : String) (v : α) (ttl : Nat) :
    Except Unit (Store α) :=
  if st.healthy then
    .ok ⟨(k, v, t + ttl) :: st.entries.filter (fun e => !(e.1 == k)), st.healthy⟩
  else .error ()

end Store

/-- Lookup in an in-process `Map`, `map.get(k) ?? null`. -/
def memLookup (mem : List (String × α)) (k : String) : Option α :=
  (mem.find? (fun e => e.1 == k)).map (fun e => e.2)

/-- `map.set(k, v)` on an in-process `Map`. -/
def memInsert (mem : List (String × α)) (k : String) (v : α) :
    List (String × α) :=
  (k, v) :: mem.filter (fun e => !(e.1 == k))

/-- JavaScript truthiness of a possibly-undefined environment/string value:
`undefined` and the empty string are falsy. -/
def jsTruthy : Option String → Bool
  | none => false
  | some s => !(s == "")

/-- JavaScript `a || d` for a possibly-undefined string `a`. -/
def jsOrStr (a : Option String) (d : String) : String :=
  match a with
  | some s => if s == "" then d else s
  | none => d

/-- Session payload stored by the gateway: `{ connectedAt, lastQuery? }`.
`{}` (the `|| {}` default in `handleTextInput`) is `⟨none, none⟩`. -/
structure SessionData where
  connectedAt : Option Nat
  lastQuery : Option String
  deriving Repr, DecidableEq

/- `SessionCache` — the canonical fallback-capable variant
(`src/nest/src/modules/cache/session.cache.ts`): a private in-process
`memory` map shadows Redis; `get`/`set` wrap Redis in `try`/`catch`. -/
namespace SessionCache

def key (sessionId : String) : String := "session:" ++ sessionId

/-- `get(sessionId)`: `try { data = redis.get; return data ? parse(data)
: (memory.get ?? null) } catch { return memory.get ?? null }`.  Total —
never rejects. -/
def get (st : Store SessionData) (mem : List (String × SessionData))
    (t : Nat) (sessionId : String) : Option SessionData :=
  match st.rget t (key sessionId) with
  | .ok (some v) => some v
  | .ok none => memLookup mem sessionId
  | .error _ => memLookup mem sessionId

/-- `set(sessionId, payload)`: writes the memory map first, then
`try { redis.set(key, payload, 'EX', 1800) } catch {}`.  Total — never
rejects; returns the new store and memory map. -/
def set (st : Store SessionData) (mem : List (String × SessionData))
    (t : Nat) (sessionId : String) (payload : SessionData) :
    Store SessionData × List (String × SessionData) :=
  let mem' := memInsert mem sessionId payload
  match st.rsetex t (key sessionId) payload 1800 with
  | .ok st' => (st', mem')
  | .error _ => (st, mem')

end SessionCache

/- The duplicate store-only `SessionCache` variant
(`src/unnamed/part_004`): no memory map, no `try`/`catch`; Redis
rejections escape from `get` and `set`. -/
namespace SessionCacheStoreOnly

def key (sessionId : String) : String := "session:" ++ sessionId

def get (st : Store SessionData) (t : Nat) (sessionId : String) :
    Except Unit (Option SessionData) :=
  st.rget t (key sessionId)

def set (st : Store SessionData) (t : Nat) (sessionId : String)
    (payload : SessionData) : Except Unit (Store SessionData) :=
  st.rsetex t (key sessionId) payload 1800

end SessionCacheStoreOnly

/- `ExactResponseCache` (`src/unnamed/part_002`): keys
`exact_response:{lang}:{text}`, TTL 60 s, no `try`/`catch`. -/
namespace ExactResponseCache

def key (lang text : String) : String :=
  "exact_response:" ++ lang ++ ":" ++ text

def get (st : Store String) (t : Nat) (lang text : String) :
    Except Unit (Option String) :=
  st.rget t (key lang text)

def set (st : Store String) (t : Nat) (lang text response : String) :
    Except Unit (Store String) :=
  st.rsetex t (key lang text) response 60

end ExactResponseCache

/- `SttRawCache` (`src/unnamed/part_003`): keys `stt_raw:{audioHash}`,
raw string values, TTL 300 s, no `try`/`catch`. -/
namespace SttRawCache

def key (audioHash : String) : String := "stt_raw:" ++ audioHash

def get (st : Store String) (t : Nat) (audioHash : String) :
    Except Unit (Option String) :=
  st.rget t (key audioHash)

def set (st : Store String) (t : Nat) (audioHash transcript : String) :
    Except Unit (Store String) :=
  st.rsetex t (key audioHash) transcript 300

end SttRawCache

/- `TtsRelayCache` (`src/nest/src/modules/cache/tts-relay.cache.ts`):
keys `tts_relay:{responseId}`, `Buffer` values (modelled as `List Nat`
byte sequences), TTL 300 s, no `try`/`catch`; `get` uses `?? null`,
not truthiness. -/
namespace TtsRelayCache

def key (responseId : String) : String := "tts_relay:" ++ responseId

def get (st : Store (List Nat)) (t : Nat) (responseId : String) :
    Except Unit (Option (List Nat)) :=
  st.rget t (key responseId)

def set (st : Store (List Nat)) (t : Nat) (responseId : String)
    (audio : List Nat) : Except Unit (Store (List Nat)) :=
  st.rsetex t (key responseId) audio 300

end TtsRelayCache

/- `AudioDedupCache` (`src/nest/src/modules/cache/audio-dedup.cache.ts`):
existence markers under `audio_chunk:{sessionId}:{hash}` with a 2 s TTL.
The xxhash32-and-hex-format step is a pure function of the chunk bytes and
is passed in as the parameter `hash`. -/
namespace AudioDedupCache

def key (sessionId h : String) : String :=
  "audio_chunk:" ++ sessionId ++ ":" ++ h

/-- `isDuplicate(sessionId, chunk)`: `GET` the marker (truthy test — the
stored marker is `'1'`); on a hit return `true` without writing; otherwise
`SET key '1' EX 2` and return `false`.  Redis rejections escape. -/
def isDuplicate (hash : List Nat → String) (st : Store String) (t : Nat)
    (sessionId : String) (chunk : List Nat) :
    Except Unit (Bool × Store String) :=
  let k := key sessionId (hash chunk)
  match st.rget t k with
  | .error e => .error e
  | .ok existing =>
    match existing with
    | some marker =>
      if marker == "" then
        match st.rsetex t k "1" 2 with
        | .error e => .error e
        | .ok st' => .ok (false, st')
      else .ok (true, st)
    | none =>
      match st.rsetex t k "1" 2 with
      | .error e => .error e
      | .ok st' => .ok (false, st')

end AudioDedupCache

/-- Environment variables read by `PollyService` (`src/unnamed/part_000`):
`none` models an unset variable. -/
structure Env where
  awsAccessKeyId : Option String
  awsSecretAccessKey : Option String
  awsRegion : Option String
  deriving Repr, DecidableEq

/-- The Polly client configuration assembled by the constructor. -/
structure PollyConfig where
  region : String
  accessKeyId : String
  secretAccessKey : String
  deriving Repr, DecidableEq

/-- `PollyService` constructor: `if (!accessKeyId || !secretAccessKey)
throw new Error('AWS credentials not found in environment variables')`;
otherwise builds the client with `region: process.env.AWS_REGION ||
'us-east-1'`.  `.error` models the constructor throwing. -/
def pollyConstruct (env : Env) : Except String PollyConfig :=
  if jsTruthy env.awsAccessKeyId && jsTruthy env.awsSecretAccessKey then
    .ok { region := jsOrStr env.awsRegion "us-east-1",
          accessKeyId := env.awsAccessKeyId.getD "",
          secretAccessKey := env.awsSecretAccessKey.getD "" }
  else .error "AWS credentials not found in environment variables"

/-- One `client.emit(event, payload)` call recorded by the gateway model.
`text` carries the textual payload field relevant to the event
(response text, status message, …); `data` carries audio bytes. -/
structure Emit where
  cid : String
  event : String
  text : String
  data : List Nat
  deriving Repr, DecidableEq

/-- A normalised message from Python as produced by `PythonSocket`'s
listeners: a routing `type` sentinel plus the payload fields the gateway
reads (`response`, `message`, `session_id`, `error`). -/
structure PyMsg where
  mtype : String
  response : Option String
  message : Option String
  session_id : Option String
  errorField : Option String
  deriving Repr, DecidableEq

/-- The greeting constant of `VoiceGateway`. -/
def GREETING : String :=
  "Hello! Welcome to TechGropse, I'm Anup, your virtual assistant. What's your name?"

/-- State of the `VoiceGateway` process: the mutable
`activeFrontendClient` field, the set of connected frontend sockets
(`server.sockets.sockets`), the upstream connection flag
(`python.socket.connected`), the cache stores the modelled handlers
touch, the clock, and logs of frontend emits and upstream sends. -/
structure GW where
  active : Option String
  clients : List String
  pyConnected : Bool
  sessionStore : Store SessionData
  sessionMem : List (String × SessionData)
  exactStore : Store String
  ttsStore : Store (List Nat)
  time : Nat
  emits : List Emit
  upSends : List (String × String)
  deriving Repr, DecidableEq

/-- Record a `client.emit(event, …)` call (most recent first). -/
def gwEmit (g : GW) (cid event text : String) (data : List Nat) : GW :=
  { g with emits := ⟨cid, event, text, data⟩ :: g.emits }

/-- `PythonSocket.emit(event, data)`: drops the event with a logged error
when the upstream socket is not connected. -/
def pySend (g : GW) (event payload : String) : GW :=
  if g.pyConnected then { g with upSends := (event, payload) :: g.upSends }
  else g

/-- `VoiceGateway.getActiveClient()`: the socket of
`activeFrontendClient`, or `null` when unset or no longer connected. -/
def getActiveClient (g : GW) : Option String :=
  match g.active with
  | none => none
  | some a => if g.clients.contains a then some a else none

/-- `VoiceGateway.handleConnection(client)`: registers the client as
active, caches `{connectedAt: Date.now()}`, emits `status`, then either
performs the upstream `new_session` handshake (upstream connected) or
emits the local fallback greeting as a `text_response`. -/
def handleConnection (g : GW) (cid : String) : GW :=
  let g := { g with clients := cid :: g.clients, active := some cid }
  let sm := SessionCache.set g.sessionStore g.sessionMem g.time cid
      ⟨some g.time, none⟩
  let g := { g with sessionStore := sm.1, sessionMem := sm.2 }
  let g := gwEmit g cid "status" "Connected to TechGropse Server" []
  if g.pyConnected then pySend g "new_session" ""
  else gwEmit g cid "text_response" GREETING []

/-- `VoiceGateway.handleDisconnect(client)`: if the departing client was
the active one, fall back to any remaining connected client (or `null`). -/
def handleDisconnect (g : GW) (cid : String) : GW :=
  let clients' := g.clients.erase cid
  let g := { g with clients := clients' }
  if g.active == some cid then
    { g with active := clients'.find? (fun i => !(i == cid)) }
  else g

/-- `VoiceGateway.emitPollyAudio(client, text)`: `try { buffer = await
pollyService.synthesizeSpeech(text, …); client.emit('tts_audio', …) }
catch (error) { log }`.  The external Polly call is the parameter
`synth`; a synthesis failure is absorbed and nothing is emitted. -/
def emitPollyAudio (g : GW) (synth : String → Except String (List Nat))
    (cid text : String) : GW :=
  match synth text with
  | .ok buf => gwEmit g cid "tts_audio" text buf
  | .error _ => g

/-- `VoiceGateway.handleTextInput(client, {text})`: marks the sender
active, records `lastQuery` in the session cache, consults the
exact-response cache (a truthy hit short-circuits: `text_response`,
`stream_complete`, then Polly audio), otherwise reports an error if the
upstream is down or forwards a `text_query`.  The `.error` result models
the awaited exact-response `get` rejecting out of the handler. -/
def handleTextInput (g : GW) (cid text : String)
    (synth : String → Except String (List Nat)) : GW × Except Unit Unit :=
  let g := { g with active := some cid }
  let sessionData :=
    (SessionCache.get g.sessionStore g.sessionMem g.time cid).getD ⟨none, none⟩
  let sm := SessionCache.set g.sessionStore g.sessionMem g.time cid
      { sessionData with lastQuery := some text }
  let g := { g with sessionStore := sm.1, sessionMem := sm.2 }
  match ExactResponseCache.get g.exactStore g.time "en" text with
  | .error e => (g, .error e)
  | .ok cachedOpt =>
    match cachedOpt with
    | some cached =>
      if cached == "" then
        if g.pyConnected then (pySend g "text_query" text, .ok ())
        else (gwEmit g cid "error" "AI service not available. Retrying…" [], .ok ())
      else
        let g := gwEmit g cid "text_response" cached []
        let g := gwEmit g cid "stream_complete" cached []
        (emitPollyAudio g synth cid cached, .ok ())
    | none =>
      if g.pyConnected then (pySend g "text_query" text, .ok ())
      else (gwEmit g cid "error" "AI service not available. Retrying…" [], .ok ())

/-- `VoiceGateway.repeatLast(client, {responseId})`: replays cached TTS
audio; a cache miss emits nothing; a rejected cache read escapes. -/
def repeatLast (g : GW) (cid responseId : String) : GW × Except Unit Unit :=
  match TtsRelayCache.get g.ttsStore g.time responseId with
  | .error e => (g, .error e)
  | .ok none => (g, .ok ())
  | .ok (some audio) => (gwEmit g cid "audio" "" audio, .ok ())

/-- `VoiceGateway.handlePythonMessage(msg)`: resolves the active client
and switches on `msg.type`, forwarding each recognised event to that
client; `TEXT_RESPONSE` additionally emits `stream_complete` and, when
the session has a truthy `lastQuery`, writes the exact-response cache
(whose rejection escapes as `.error`, after the emits). -/
def handlePythonMessage (msg : PyMsg) (g : GW) : GW × Except Unit Unit :=
  let client := getActiveClient g
  match msg.mtype with
  | "STATUS" =>
    match client with
    | some c =>
      let g := gwEmit g c "status" (jsOrStr msg.message "") []
      if jsTruthy msg.session_id then
        (gwEmit g c "session_ready" (jsOrStr msg.session_id "") [], .ok ())
      else (g, .ok ())
    | none => (g, .ok ())
  | "TEXT_RESPONSE" =>
    match client with
    | some c =>
      let responseText := jsOrStr msg.response (jsOrStr msg.message "")
      let g := gwEmit g c "text_response" responseText []
      let g := gwEmit g c "stream_complete" responseText []
      match SessionCache.get g.sessionStore g.sessionMem g.time c with
      | some sd =>
        match sd.lastQuery with
        | some q =>
          if q == "" then (g, .ok ())
          else
            match ExactResponseCache.set g.exactStore g.time "en" q responseText with
            | .ok st' => ({ g with exactStore := st' }, .ok ())
            | .error e => (g, .error e)
        | none => (g, .ok ())
      | none => (g, .ok ())
    | none => (g, .ok ())
  | "QUERY_RECEIVED" =>
    match client with
    | some c => (gwEmit g c "query_received" (jsOrStr msg.message "") [], .ok ())
    | none => (g, .ok ())
  | "AUDIO_START" =>
    match client with
    | some c => (gwEmit g c "audio_start" (jsOrStr msg.message "") [], .ok ())
    | none => (g, .ok ())
  | "AUDIO_CHUNK" =>
    match client with
    | some c => (gwEmit g c "audio_chunk" (jsOrStr msg.message "") [], .ok ())
    | none => (g, .ok ())
  | "AUDIO_END" =>
    match client with
    | some c => (gwEmit g c "audio_end" (jsOrStr msg.message "") [], .ok ())
    | none => (g, .ok ())
  | "AUDIO_INTERRUPTED" =>
    match client with
    | some c => (gwEmit g c "audio_interrupted" (jsOrStr msg.message "") [], .ok ())
    | none => (g, .ok ())
  | "TRANSCRIPTION_START" =>
    match client with
    | some c => (gwEmit g c "transcription_start" (jsOrStr msg.message "") [], .ok ())
    | none => (g, .ok ())
  | "TRANSCRIPTION_COMPLETE" =>
    match client with
    | some c => (gwEmit g c "transcription_complete" (jsOrStr msg.message "") [], .ok ())
    | none => (g, .ok ())
  | "SPECULATIVE_READY" =>
    match client with
    | some c => (gwEmit g c "speculative_ready" (jsOrStr msg.message "") [], .ok ())
    | none => (g, .ok ())
  | "RESPONSE_INTERRUPTED" =>
    match client with
    | some c => (gwEmit g c "response_interrupted" (jsOrStr msg.message "") [], .ok ())
    | none => (g, .ok ())
  | "VOICE_CHANGED" =>
    match client with
    | some c => (gwEmit g c "voice_changed" (jsOrStr msg.message "") [], .ok ())
    | none => (g, .ok ())
  | "AVAILABLE_VOICES" =>
    match client with
    | some c => (gwEmit g c "available_voices" (jsOrStr msg.message "") [], .ok ())
    | none => (g, .ok ())
  | "ERROR" =>
    match client with
    | some c =>
      (gwEmit g c "error" (jsOrStr msg.message (jsOrStr msg.errorField "")) [], .ok ())
    | none => (g, .ok ())
  | _ => (g, .ok ())

namespace PythonSocket

/-- `PythonSocket.dispatch(msg)`: no-op when no handler is registered;
otherwise `try { await handler(msg) } catch (err) { log }` — the state as
mutated up to the throw is kept, the exception never propagates. -/
def dispatchMsg (handler : Option (PyMsg → GW → GW × Except Unit Unit))
    (msg : PyMsg) (g : GW) : GW :=
  match handler with
  | none => g
  | some h => (h msg g).1

/-- The upstream socket delivering a sequence of messages, each run
through `dispatch`. -/
def processMessages (handler : Option (PyMsg → GW → GW × Except Unit Unit))
    (g : GW) (msgs : List PyMsg) : GW :=
  msgs.foldl (fun g m => dispatchMsg handler m g) g

end PythonSocket

/-- The externally observable events driving the gateway.  The `owner`
field of `pyReply` is ghost instrumentation: it names the session whose
outstanding request the upstream reply answers; the code never reads it
(the wire protocol carries no correlation identifier). -/
inductive GEvent where
  | connect (cid : String)
  | disconnect (cid : String)
  | textInput (cid text : String)
  | repeatReq (cid responseId : String)
  | pyReply (owner : String) (msg : PyMsg)
  deriving Repr, DecidableEq

/-- One scheduler step of the gateway.  Frontend handler rejections are
absorbed by the Socket.IO framework; upstream messages flow through
`PythonSocket.dispatchMsg` with `handlePythonMessage` registered. -/
def stepG (synth : String → Except String (List Nat)) (g : GW) :
    GEvent → GW
  | .connect cid => handleConnection g cid
  | .disconnect cid => handleDisconnect g cid
  | .textInput cid text => (handleTextInput g cid text synth).1
  | .repeatReq cid responseId => (repeatLast g cid responseId).1
  | .pyReply _ msg => PythonSocket.dispatchMsg (some handlePythonMessage) msg g

/-- Run the gateway over a trace of events. -/
def runTrace (synth : String → Except String (List Nat)) (g : GW)
    (evs : List GEvent) : GW :=
  evs.foldl (stepG synth) g

/-- Gateway start state: no client connected, upstream connected, all
stores empty and healthy. -/
def initGW : GW :=
  { active := none, clients := [], pyConnected := true,
    sessionStore := ⟨[], true⟩, sessionMem := [],
    exactStore := ⟨[], true⟩, ttsStore := ⟨[], true⟩,
    time := 0, emits := [], upSends := [] }

/-- A synthesis backend that always fails (used in concrete traces where
the synthesis path is never reached or must be shown absorbed). -/
def noSynth : String → Except String (List Nat) :=
  fun _ => .error "synthesis unavailable"

/-- On a healthy store, `SET … EX ttl` writes the entry with expiry
`t + ttl` at the head, shadowing any previous entry for the key. -/
theorem Store.rsetex_eq (st : Store α) (t : Nat) (k : String) (v : α)
    (ttl : Nat) (hH : st.healthy = true) :
    st.rsetex t k v ttl =
      .ok ⟨(k, v, t + ttl) :: st.entries.filter (fun e => !(e.1 == k)), true⟩ := by
  simp [Store.rsetex, hH]

/-- Reading the key just written returns it while unexpired. -/
theorem Store.rget_cons_same (es : List (String × α × Nat)) (k : String)
    (v : α) (expiry t : Nat) :
    Store.rget ⟨(k, v, expiry) :: es, true⟩ t k =
      .ok (if t < expiry then some v else none) := by
  simp [Store.rget, Store.lookup]

/-- Claim C3: for every cache role, a `set(key, value)` followed by a
`get(key)` before the role's TTL has elapsed returns the stored value
(session 1800 s, exact-response 60 s, raw-transcript 300 s, tts-relay
300 s; the dedup role exposes no `get`/`set` pair and is covered by the
dedup theorem). -/
theorem c3_cache_roundtrip
    (stS : Store SessionData) (mem : List (String × SessionData))
    (stE stR : Store String) (stT : Store (List Nat))
    (t t' : Nat) (sid lang text audioHash rid : String)
    (sd : SessionData) (resp transcript : String) (audio : List Nat)
    (hS : stS.healthy = true) (hE : stE.healthy = true)
    (hR : stR.healthy = true) (hT : stT.healthy = true)
    (h1 : t' < t + 1800) (h2 : t' < t + 60) (h3 : t' < t + 300) :
    SessionCache.get (SessionCache.set stS mem t sid sd).1
        (SessionCache.set stS mem t sid sd).2 t' sid = some sd
    ∧ (∀ st2, ExactResponseCache.set stE t lang text resp = .ok st2 →
        ExactResponseCache.get st2 t' lang text = .ok (some resp))
    ∧ (∀ st2, SttRawCache.set stR t audioHash transcript = .ok st2 →
        SttRawCache.get st2 t' audioHash = .ok (some transcript))
    ∧ (∀ st2, TtsRelayCache.set stT t rid audio = .ok st2 →
        TtsRelayCache.get st2 t' rid = .ok (some audio)) := by
  refine ⟨?_, ?_, ?_, ?_⟩
  · simp [SessionCache.set, Store.rsetex_eq stS t _ sd 1800 hS,
      SessionCache.get, Store.rget_cons_same, h1]
  · intro st2 hset
    rw [ExactResponseCache.set, Store.rsetex_eq stE t _ resp 60 hE] at hset
    simp only [Except.ok.injEq] at hset
    subst hset
    simp [ExactResponseCache.get, Store.rget_cons_same, h2]
  · intro st2 hset
    rw [SttRawCache.set, Store.rsetex_eq stR t _ transcript 300 hR] at hset
    simp only [Except.ok.injEq] at hset
    subst hset
    simp [SttRawCache.get, Store.rget_cons_same, h3]
  · intro st2 hset
    rw [TtsRelayCache.set, Store.rsetex_eq stT t _ audio 300 hT] at hset
    simp only [Except.ok.injEq] at hset
    subst hset
    simp [TtsRelayCache.get, Store.rget_cons_same, h3]

/-- Witness for C3 at concrete inputs: empty healthy stores, write at
time 0, read at time 1. -/
theorem c3_cache_roundtrip_witness :
    SessionCache.get
        (SessionCache.set ⟨[], true⟩ [] 0 "s" ⟨some 0, none⟩).1
        (SessionCache.set ⟨[], true⟩ [] 0 "s" ⟨some 0, none⟩).2 1 "s"
      = some ⟨some 0, none⟩
    ∧ ExactResponseCache.get
        ⟨[("exact_response:en:hi", "r", 60)], true⟩ 1 "en" "hi" = .ok (some "r") := by
  have h := c3_cache_roundtrip ⟨[], true⟩ [] ⟨[], true⟩ ⟨[], true⟩ ⟨[], true⟩
    0 1 "s" "en" "hi" "ah" "rid" ⟨some 0, none⟩ "r" "tr" [7]
    rfl rfl rfl rfl (by decide) (by decide) (by decide)
  exact ⟨h.1, h.2.1 ⟨[("exact_response:en:hi", "r", 60)], true⟩ rfl⟩

/-- Counterexample for C2: on a failing backing store the exact-response
cache's `get` and `set` reject (`.error`), i.e. the failure propagates
out of the cache tier instead of degrading to absent. -/
theorem c2_failure_counterexample :
    ExactResponseCache.get ⟨[], false⟩ 0 "en" "hello" = .error ()
    ∧ ExactResponseCache.set ⟨[], false⟩ 0 "en" "hello" "r" = .error () :=
  ⟨rfl, rfl⟩

/-- Claim C2 as amended: only the session cache absorbs backing-store
failures (`get` serves the in-process fallback, `set` completes); for the
exact-response, raw-transcript, tts-relay and dedup roles a backing-store
failure propagates out of `get`/`set`/`isDuplicate` as a rejection. -/
theorem c2_failure_amended
    (stE stR stD : Store String) (stT : Store (List Nat))
    (stS : Store SessionData) (mem : List (String × SessionData))
    (t : Nat) (sid lang text audioHash rid : String)
    (resp transcript : String) (audio chunk : List Nat) (sd : SessionData)
    (hash : List Nat → String)
    (hE : stE.healthy = false) (hR : stR.healthy = false)
    (hT : stT.healthy = false) (hD : stD.healthy = false)
    (hS : stS.healthy = false) :
    SessionCache.get stS mem t sid = memLookup mem sid
    ∧ SessionCache.set stS mem t sid sd = (stS, memInsert mem sid sd)
    ∧ ExactResponseCache.get stE t lang text = .error ()
    ∧ ExactResponseCache.set stE t lang text resp = .error ()
    ∧ SttRawCache.get stR t audioHash = .error ()
    ∧ SttRawCache.set stR t audioHash transcript = .error ()
    ∧ TtsRelayCache.get stT t rid = .error ()
    ∧ TtsRelayCache.set stT t rid audio = .error ()
    ∧ AudioDedupCache.isDuplicate hash stD t sid chunk = .error () := by
  refine ⟨?_, ?_, ?_, ?_, ?_, ?_, ?_, ?_, ?_⟩
  · simp [SessionCache.get, Store.rget, hS]
  · simp [SessionCache.set, Store.rsetex, hS]
  · simp [ExactResponseCache.get, Store.rget, hE]
  · simp [ExactResponseCache.set, Store.rsetex, hE]
  · simp [SttRawCache.get, Store.rget, hR]
  · simp [SttRawCache.set, Store.rsetex, hR]
  · simp [TtsRelayCache.get, Store.rget, hT]
  · simp [TtsRelayCache.set, Store.rsetex, hT]
  · simp [AudioDedupCache.isDuplicate, Store.rget, hD]

/-- Witness for the amended C2 at concrete failing stores. -/
theorem c2_failure_amended_witness :
    SessionCache.get ⟨[], false⟩ [("s", ⟨some 0, none⟩)] 0 "s" = some ⟨some 0, none⟩
    ∧ SttRawCache.get ⟨[], false⟩ 0 "ah" = .error () := by
  have h := c2_failure_amended ⟨[], false⟩ ⟨[], false⟩ ⟨[], false⟩ ⟨[], false⟩
    ⟨[], false⟩ [("s", ⟨some 0, none⟩)] 0 "s" "en" "hi" "ah" "rid" "r" "tr"
    [7] [8] ⟨some 0, none⟩ (fun _ => "h") rfl rfl rfl rfl rfl
  exact ⟨h.1.trans rfl, h.2.2.2.2.1⟩

/-- Counterexample for C4: with a healthy store throughout, the session
role (fallback variant) still returns the payload from its in-process map
after the 1800 s TTL has elapsed: `get` is not absent after expiry. -/
theorem c4_expiry_counterexample :
    SessionCache.get (SessionCache.set ⟨[], true⟩ [] 0 "s" ⟨some 0, none⟩).1
        (SessionCache.set ⟨[], true⟩ [] 0 "s" ⟨some 0, none⟩).2 1800 "s"
      = some ⟨some 0, none⟩
    ∧ SessionCache.get (SessionCache.set ⟨[], true⟩ [] 0 "s" ⟨some 0, none⟩).1
        (SessionCache.set ⟨[], true⟩ [] 0 "s" ⟨some 0, none⟩).2 1800 "s"
      ≠ none := by
  refine ⟨by decide, by decide⟩

/-- Claim C4 as amended: after the role's TTL has elapsed the
exact-response, raw-transcript and tts-relay caches return absent, and a
`repeat_last` on an expired relay entry emits nothing; the session role's
fallback variant instead serves the un-expiring in-process copy. -/
theorem c4_expiry_amended
    (stE stR : Store String) (stT : Store (List Nat))
    (stS : Store SessionData) (mem : List (String × SessionData)) (g : GW)
    (t t' : Nat) (lang text audioHash rid sid cid : String)
    (resp transcript : String) (audio : List Nat) (sd : SessionData)
    (hE : stE.healthy = true) (hR : stR.healthy = true)
    (hT : stT.healthy = true) (hS : stS.healthy = true)
    (h2 : t + 60 ≤ t') (h3 : t + 300 ≤ t') (h1 : t + 1800 ≤ t')
    (hmiss : TtsRelayCache.get g.ttsStore g.time rid = .ok none) :
    (∀ st2, ExactResponseCache.set stE t lang text resp = .ok st2 →
        ExactResponseCache.get st2 t' lang text = .ok none)
    ∧ (∀ st2, SttRawCache.set stR t audioHash transcript = .ok st2 →
        SttRawCache.get st2 t' audioHash = .ok none)
    ∧ (∀ st2, TtsRelayCache.set stT t rid audio = .ok st2 →
        TtsRelayCache.get st2 t' rid = .ok none)
    ∧ repeatLast g cid rid = (g, .ok ())
    ∧ SessionCache.get (SessionCache.set stS mem t sid sd).1
        (SessionCache.set stS mem t sid sd).2 t' sid = some sd := by
  refine ⟨?_, ?_, ?_, ?_, ?_⟩
  · intro st2 hset
    rw [ExactResponseCache.set, Store.rsetex_eq stE t _ resp 60 hE] at hset
    simp only [Except.ok.injEq] at hset
    subst hset
    simp [ExactResponseCache.get, Store.rget_cons_same,
      (show ¬ (t' < t + 60) by omega)]
  · intro st2 hset
    rw [SttRawCache.set, Store.rsetex_eq stR t _ transcript 300 hR] at hset
    simp only [Except.ok.injEq] at hset
    subst hset
    simp [SttRawCache.get, Store.rget_cons_same,
      (show ¬ (t' < t + 300) by omega)]
  · intro st2 hset
    rw [TtsRelayCache.set, Store.rsetex_eq stT t _ audio 300 hT] at hset
    simp only [Except.ok.injEq] at hset
    subst hset
    simp [TtsRelayCache.get, Store.rget_cons_same,
      (show ¬ (t' < t + 300) by omega)]
  · simp [repeatLast, hmiss]
  · simp [SessionCache.set, Store.rsetex_eq stS t _ sd 1800 hS,
      SessionCache.get, Store.rget_cons_same,
      (show ¬ (t' < t + 1800) by omega), memLookup, memInsert]

/-- Witness for the amended C4: write at 0, read at 1800. -/
theorem c4_expiry_amended_witness :
    ExactResponseCache.get ⟨[("exact_response:en:hi", "r", 60)], true⟩ 1800 "en" "hi"
      = .ok none
    ∧ repeatLast initGW "c" "rid" = (initGW, .ok ()) := by
  have h := c4_expiry_amended ⟨[], true⟩ ⟨[], true⟩ ⟨[], true⟩ ⟨[], true⟩ []
    initGW 0 1800 "en" "hi" "ah" "rid" "s" "c" "r" "tr" [7] ⟨some 0, none⟩
    rfl rfl rfl rfl (by decide) (by decide) (by decide) rfl
  exact ⟨h.1 ⟨[("exact_response:en:hi", "r", 60)], true⟩ rfl, h.2.2.2.1⟩

/-- Claim C5: under one scope and identical bytes, the first
`isDuplicate` call returns `false` and records a 2 s marker, a second
call before the marker expires returns `true`, and a call at or after
expiry returns `false` again (re-marking). -/
theorem c5_dedup (hash : List Nat → String) (st : Store String)
    (t1 t2 t3 : Nat) (sid : String) (chunk : List Nat)
    (hH : st.healthy = true)
    (hfresh : st.lookup (AudioDedupCache.key sid (hash chunk)) = none)
    (h12 : t2 < t1 + 2) (h13 : t1 + 2 ≤ t3) :
    ∃ st' st'',
      AudioDedupCache.isDuplicate hash st t1 sid chunk = .ok (false, st')
      ∧ AudioDedupCache.isDuplicate hash st' t2 sid chunk = .ok (true, st')
      ∧ AudioDedupCache.isDuplicate hash st' t3 sid chunk = .ok (false, st'') := by
  refine ⟨⟨(AudioDedupCache.key sid (hash chunk), "1", t1 + 2) ::
      st.entries.filter
        (fun e => !(e.1 == AudioDedupCache.key sid (hash chunk))), true⟩,
    ?_, ?_, ?_, ?_⟩
  case _ => exact ⟨(AudioDedupCache.key sid (hash chunk), "1", t3 + 2) ::
      (((AudioDedupCache.key sid (hash chunk), "1", t1 + 2) ::
        st.entries.filter
          (fun e => !(e.1 == AudioDedupCache.key sid (hash chunk)))).filter
        (fun e => !(e.1 == AudioDedupCache.key sid (hash chunk)))), true⟩
  · simp [AudioDedupCache.isDuplicate, Store.rget, hH, hfresh, Store.rsetex]
  · simp [AudioDedupCache.isDuplicate, Store.rget, Store.lookup, h12]
  · simp [AudioDedupCache.isDuplicate, Store.rget, Store.lookup, Store.rsetex,
      (show ¬ (t3 < t1 + 2) by omega)]

/-- Witness for C5: fresh empty store, calls at times 0, 1 and 2. -/
theorem c5_dedup_witness :
    ∃ st' st'',
      AudioDedupCache.isDuplicate (fun _ => "h") ⟨[], true⟩ 0 "s" [1]
        = .ok (false, st')
      ∧ AudioDedupCache.isDuplicate (fun _ => "h") st' 1 "s" [1]
        = .ok (true, st')
      ∧ AudioDedupCache.isDuplicate (fun _ => "h") st' 2 "s" [1]
        = .ok (false, st'') :=
  c5_dedup (fun _ => "h") ⟨[], true⟩ 0 1 2 "s" [1] rfl rfl
    (by decide) (by decide)

/-- Counterexample for C8: both credential variables are present in the
environment (set to a string), yet the constructor throws, because the
empty string is falsy in JavaScript. -/
theorem c8_credentials_counterexample :
    pollyConstruct ⟨some "", some "secret", none⟩ =
      .error "AWS credentials not found in environment variables"
    ∧ (⟨some "", some "secret", none⟩ : Env).awsAccessKeyId ≠ none
    ∧ (⟨some "", some "secret", none⟩ : Env).awsSecretAccessKey ≠ none := by
  refine ⟨rfl, by decide, by decide⟩

/-- Claim C8 as amended: the constructor throws iff either credential is
absent or empty; when both are non-empty it succeeds regardless of the
other configuration, defaulting the region to us-east-1. -/
theorem c8_credentials_amended (env : Env) :
    (jsTruthy env.awsAccessKeyId = true →
      jsTruthy env.awsSecretAccessKey = true →
      pollyConstruct env = .ok ⟨jsOrStr env.awsRegion "us-east-1",
        env.awsAccessKeyId.getD "", env.awsSecretAccessKey.getD ""⟩)
    ∧ (jsTruthy env.awsAccessKeyId = false ∨
        jsTruthy env.awsSecretAccessKey = false →
      pollyConstruct env =
        .error "AWS credentials not found in environment variables") := by
  constructor
  · intro h1 h2
    simp [pollyConstruct, h1, h2]
  · intro h
    rcases h with h | h <;> simp [pollyConstruct, h]

/-- Witness for the amended C8: full credentials succeed with the default
region; a missing access key is fatal. -/
theorem c8_credentials_amended_witness :
    pollyConstruct ⟨some "AKIA", some "sk", none⟩ =
      .ok ⟨"us-east-1", "AKIA", "sk"⟩
    ∧ pollyConstruct ⟨none, some "sk", none⟩ =
      .error "AWS credentials not found in environment variables" :=
  ⟨(c8_credentials_amended ⟨some "AKIA", some "sk", none⟩).1 rfl rfl,
   (c8_credentials_amended ⟨none, some "sk", none⟩).2 (Or.inl rfl)⟩

/-- Counterexample for C9: every backing-store operation succeeds
(healthy store, `set` returns ok), yet after the 1800 s TTL the two
variants disagree — the store-only variant reads absent while the
fallback variant serves the payload from its in-process map. -/
theorem c9_variants_counterexample :
    SessionCacheStoreOnly.set ⟨[], true⟩ 0 "s" ⟨some 0, none⟩ =
      .ok ⟨[("session:s", ⟨some 0, none⟩, 1800)], true⟩
    ∧ SessionCacheStoreOnly.get
        ⟨[("session:s", ⟨some 0, none⟩, 1800)], true⟩ 1800 "s" = .ok none
    ∧ SessionCache.get (SessionCache.set ⟨[], true⟩ [] 0 "s" ⟨some 0, none⟩).1
        (SessionCache.set ⟨[], true⟩ [] 0 "s" ⟨some 0, none⟩).2 1800 "s"
      = some ⟨some 0, none⟩ := by
  refine ⟨rfl, rfl, by decide⟩

/-- Claim C9 as amended: the two `SessionCache` variants share the key
scheme `session:{sessionId}` and the 1800 s TTL, and agree on set-then-get
round trips read before expiry; they differ when a backing-store
operation fails or when the store entry has expired — in both cases the
fallback variant serves the last in-process payload while the store-only
variant does not. -/
theorem c9_variants_amended
    (stA stB stBad : Store SessionData)
    (mem memB : List (String × SessionData))
    (t t' : Nat) (sid : String) (sd : SessionData)
    (hA : stA.healthy = true) (hB : stB.healthy = true)
    (hBad : stBad.healthy = false) (h1 : t' < t + 1800) :
    (∀ s, SessionCacheStoreOnly.key s = SessionCache.key s)
    ∧ (SessionCache.set stA mem t sid sd).1 =
        ⟨("session:" ++ sid, sd, t + 1800) ::
          stA.entries.filter (fun e => !(e.1 == "session:" ++ sid)), true⟩
    ∧ SessionCacheStoreOnly.set stB t sid sd =
        .ok ⟨("session:" ++ sid, sd, t + 1800) ::
          stB.entries.filter (fun e => !(e.1 == "session:" ++ sid)), true⟩
    ∧ SessionCache.get (SessionCache.set stA mem t sid sd).1
        (SessionCache.set stA mem t sid sd).2 t' sid = some sd
    ∧ (∀ st2, SessionCacheStoreOnly.set stB t sid sd = .ok st2 →
        SessionCacheStoreOnly.get st2 t' sid = .ok (some sd))
    ∧ SessionCache.get stBad memB t sid = memLookup memB sid
    ∧ SessionCache.set stBad memB t sid sd = (stBad, memInsert memB sid sd)
    ∧ SessionCacheStoreOnly.get stBad t sid = .error ()
    ∧ SessionCacheStoreOnly.set stBad t sid sd = .error () := by
  refine ⟨fun s => rfl, ?_, ?_, ?_, ?_, ?_, ?_, ?_, ?_⟩
  · simp [SessionCache.set, Store.rsetex_eq stA t _ sd 1800 hA, SessionCache.key]
  · simp [SessionCacheStoreOnly.set,
      Store.rsetex_eq stB t _ sd 1800 hB, SessionCacheStoreOnly.key]
  · simp [SessionCache.set, Store.rsetex_eq stA t _ sd 1800 hA,
      SessionCache.get, Store.rget_cons_same, h1]
  · intro st2 hset
    rw [SessionCacheStoreOnly.set, Store.rsetex_eq stB t _ sd 1800 hB] at hset
    simp only [Except.ok.injEq] at hset
    subst hset
    simp [SessionCacheStoreOnly.get, Store.rget_cons_same, h1]
  · simp [SessionCache.get, Store.rget, hBad]
  · simp [SessionCache.set, Store.rsetex, hBad]
  · simp [SessionCacheStoreOnly.get, Store.rget, hBad]
  · simp [SessionCacheStoreOnly.set, Store.rsetex, hBad]

/-- Witness for the amended C9 at concrete inputs. -/
theorem c9_variants_amended_witness :
    SessionCache.get (SessionCache.set ⟨[], true⟩ [] 0 "s" ⟨some 0, none⟩).1
        (SessionCache.set ⟨[], true⟩ [] 0 "s" ⟨some 0, none⟩).2 5 "s"
      = some ⟨some 0, none⟩
    ∧ SessionCacheStoreOnly.get ⟨[], false⟩ 0 "s" = .error () := by
  have h := c9_variants_amended ⟨[], true⟩ ⟨[], true⟩ ⟨[], false⟩ [] []
    0 5 "s" ⟨some 0, none⟩ rfl rfl rfl (by decide)
  exact ⟨h.2.2.2.1, h.2.2.2.2.2.2.2.1⟩

/-- Claim C6: on client connect, when the upstream link is connected the
gateway sends the `new_session` handshake and emits no `text_response`;
when it is disconnected the gateway emits the local fallback greeting and
performs no handshake — exactly one of the two happens, so the greeting
is not duplicated by this path. -/
theorem c6_local_greeting (g : GW) (cid : String) :
    (g.pyConnected = true →
      (handleConnection g cid).upSends = ("new_session", "") :: g.upSends
      ∧ (handleConnection g cid).emits =
          ⟨cid, "status", "Connected to TechGropse Server", []⟩ :: g.emits)
    ∧ (g.pyConnected = false →
      (handleConnection g cid).upSends = g.upSends
      ∧ (handleConnection g cid).emits =
          ⟨cid, "text_response", GREETING, []⟩ ::
            ⟨cid, "status", "Connected to TechGropse Server", []⟩ :: g.emits) := by
  constructor
  · intro h
    simp [handleConnection, gwEmit, pySend, h]
  · intro h
    simp [handleConnection, gwEmit, pySend, h]

/-- Witness for C6: a connect with upstream up sends the handshake; a
connect with upstream down emits the greeting after the status event. -/
theorem c6_local_greeting_witness :
    (handleConnection initGW "A").upSends = [("new_session", "")]
    ∧ (handleConnection
        ⟨none, [], false, ⟨[], true⟩, [], ⟨[], true⟩, ⟨[], true⟩, 0, [], []⟩
        "A").emits =
      [⟨"A", "text_response", GREETING, []⟩,
       ⟨"A", "status", "Connected to TechGropse Server", []⟩] := by
  have h1 := (c6_local_greeting initGW "A").1 rfl
  have h2 := (c6_local_greeting
    ⟨none, [], false, ⟨[], true⟩, [], ⟨[], true⟩, ⟨[], true⟩, 0, [], []⟩
    "A").2 rfl
  exact ⟨h1.1, h2.2⟩

/-- Claim C7: on the cached-response path, when speech synthesis fails
the `text_response` and `stream_complete` events have already been
emitted, no `tts_audio` is emitted, and the handler completes without an
exception — the synthesis failure is absorbed inside `emitPollyAudio`. -/
theorem c7_synthesis_absorbed (g : GW) (cid text r err : String)
    (synth : String → Except String (List Nat))
    (hc : ExactResponseCache.get g.exactStore g.time "en" text = .ok (some r))
    (hr : (r == "") = false)
    (hs : synth r = .error err) :
    (handleTextInput g cid text synth).2 = .ok ()
    ∧ (handleTextInput g cid text synth).1.emits =
        ⟨cid, "stream_complete", r, []⟩ ::
          ⟨cid, "text_response", r, []⟩ :: g.emits
    ∧ (handleTextInput g cid text synth).1.upSends = g.upSends := by
  refine ⟨?_, ?_, ?_⟩ <;>
    simp [handleTextInput, hc, hr, emitPollyAudio, hs, gwEmit]

/-- Witness for C7: a concrete cache hit with a failing synthesizer. -/
theorem c7_synthesis_absorbed_witness :
    (handleTextInput
        ⟨none, [], true, ⟨[], true⟩, [],
         ⟨[("exact_response:en:hi", "r", 60)], true⟩, ⟨[], true⟩, 0, [], []⟩
        "A" "hi" noSynth).2 = .ok ()
    ∧ (handleTextInput
        ⟨none, [], true, ⟨[], true⟩, [],
         ⟨[("exact_response:en:hi", "r", 60)], true⟩, ⟨[], true⟩, 0, [], []⟩
        "A" "hi" noSynth).1.emits =
      [⟨"A", "stream_complete", "r", []⟩, ⟨"A", "text_response", "r", []⟩] := by
  have h := c7_synthesis_absorbed
    ⟨none, [], true, ⟨[], true⟩, [],
     ⟨[("exact_response:en:hi", "r", 60)], true⟩, ⟨[], true⟩, 0, [], []⟩
    "A" "hi" "r" "synthesis unavailable" noSynth rfl rfl rfl
  exact ⟨h.1, h.2.1⟩

/-- Claim C10: a rejection thrown by the registered message handler is
caught inside `PythonSocket.dispatch` — the state reached before the
throw is kept, nothing propagates to the socket layer, and every
subsequent upstream message is still dispatched to the handler. -/
theorem c10_handler_error_absorbed
    (h : PyMsg → GW → GW × Except Unit Unit) (m : PyMsg) (g : GW)
    (ms : List PyMsg)
    (hfail : (h m g).2 = .error ()) :
    PythonSocket.dispatchMsg (some h) m g = (h m g).1
    ∧ PythonSocket.processMessages (some h) g (m :: ms) =
        PythonSocket.processMessages (some h) ((h m g).1) ms := by
  constructor
  · simp [PythonSocket.dispatchMsg]
  · simp [PythonSocket.processMessages, PythonSocket.dispatchMsg]

/-- Witness for C10: with an unhealthy exact-response store,
`handlePythonMessage` rejects on a `TEXT_RESPONSE` (after its emits), yet
processing continues with the next message. -/
theorem c10_handler_error_absorbed_witness :
    (handlePythonMessage ⟨"TEXT_RESPONSE", some "hi", none, none, none⟩
        ⟨some "A", ["A"], true, ⟨[], false⟩, [("A", ⟨some 0, some "q"⟩)],
         ⟨[], false⟩, ⟨[], true⟩, 0, [], []⟩).2 = .error ()
    ∧ PythonSocket.processMessages (some handlePythonMessage)
        ⟨some "A", ["A"], true, ⟨[], false⟩, [("A", ⟨some 0, some "q"⟩)],
         ⟨[], false⟩, ⟨[], true⟩, 0, [], []⟩
        [⟨"TEXT_RESPONSE", some "hi", none, none, none⟩,
         ⟨"STATUS", none, some "ok", none, none⟩] =
      PythonSocket.processMessages (some handlePythonMessage)
        ((handlePythonMessage ⟨"TEXT_RESPONSE", some "hi", none, none, none⟩
          ⟨some "A", ["A"], true, ⟨[], false⟩, [("A", ⟨some 0, some "q"⟩)],
           ⟨[], false⟩, ⟨[], true⟩, 0, [], []⟩).1)
        [⟨"STATUS", none, some "ok", none, none⟩] := by
  have h := c10_handler_error_absorbed handlePythonMessage
    ⟨"TEXT_RESPONSE", some "hi", none, none, none⟩
    ⟨some "A", ["A"], true, ⟨[], false⟩, [("A", ⟨some 0, some "q"⟩)],
     ⟨[], false⟩, ⟨[], true⟩, 0, [], []⟩
    [⟨"STATUS", none, some "ok", none, none⟩] rfl
  exact ⟨rfl, h.2⟩

/-- Claim C1 fails on the code: in the trace where client A connects and
sends `text_input "hello"`, then client B connects, the upstream reply
answering A's request (ghost owner A) is emitted as a `text_response` to
B — a different, still-connected client — and never to A. -/
theorem c1_crosstalk_code_bug :
    Emit.mk "B" "text_response" "hi" [] ∈
      (runTrace noSynth initGW
        [GEvent.connect "A", GEvent.textInput "A" "hello",
         GEvent.connect "B",
         GEvent.pyReply "A" ⟨"TEXT_RESPONSE", some "hi", none, none, none⟩]).emits
    ∧ Emit.mk "A" "text_response" "hi" [] ∉
      (runTrace noSynth initGW
        [GEvent.connect "A", GEvent.textInput "A" "hello",
         GEvent.connect "B",
         GEvent.pyReply "A" ⟨"TEXT_RESPONSE", some "hi", none, none, none⟩]).emits
    ∧ "A" ∈
      (runTrace noSynth initGW
        [GEvent.connect "A", GEvent.textInput "A" "hello",
         GEvent.connect "B",
         GEvent.pyReply "A" ⟨"TEXT_RESPONSE", some "hi", none, none, none⟩]).clients
    ∧ "A" ≠ "B" := by
  refine ⟨by decide, by decide, by decide, by decide⟩
